import Mathlib

/-!
Shallow embedding of the USB HID keyboard firmware core
(`src/hid.rs`, `src/usbout.rs` of stm32f103_k2k):

* the HID Protocol Engine (`HidClass`): the pending-transfer flag
  (`expect_interrupt_in_complete`), `write`, `reset`,
  `endpoint_in_complete`, `poll`, `endpoint_out`,
  `get_configuration_descriptors`, and control-request routing
  (`control_in` / `control_out`);
* the Report Encoder (`KbHidReport`): `pressed`, `set_all`, `clear`;
* the Output Adapter's `send_report` spin-wait loop (`USBOut`).

External hardware effects (the interrupt-IN endpoint write, the
descriptor writer, the control transfer and the device capability) are
modelled as explicit inputs/outputs: the endpoint write result is an
oracle value, descriptor emission is a trace of writes, and the device
capability's `get_report`/`set_report` are response functions.
Machine bytes are `Nat` values below 256.
-/

namespace K2K

/-- Key-code byte values of the external `keytokey::KeyCode` enum used by
the encoder (standard HID usage codes): `No = 0x00`,
`ErrorRollOver = 0x01`, `PostFail = 0x02`, `ErrorUndefined = 0x03`,
modifiers `LCtrl = 0xE0` through `RGui = 0xE7`. -/
def KeyCode.No : Nat := 0x00

def KeyCode.ErrorRollOver : Nat := 0x01

def KeyCode.PostFail : Nat := 0x02

def KeyCode.ErrorUndefined : Nat := 0x03

def KeyCode.LCtrl : Nat := 0xE0

def KeyCode.RGui : Nat := 0xE7

/-- `KeyCode::is_modifier`: the key code is one of the eight modifier
keys `LCtrl ..= RGui` (`0xE0 ..= 0xE7`). -/
def is_modifier (kc : Nat) : Bool :=
  decide (KeyCode.LCtrl ≤ kc ∧ kc ≤ KeyCode.RGui)

/-- `KeyCode::as_modifier_bit`: `1 << (kc - LCtrl)`. -/
def as_modifier_bit (kc : Nat) : Nat :=
  2 ^ (kc - KeyCode.LCtrl)

/-- A "regular" key for the report encoder: a byte-sized key code that
is not `No`, not one of the three error sentinels, and not a modifier. -/
def regular_key (kc : Nat) : Prop :=
  kc < 256 ∧ kc ≠ KeyCode.No ∧ kc ≠ KeyCode.ErrorRollOver ∧
    kc ≠ KeyCode.PostFail ∧ kc ≠ KeyCode.ErrorUndefined ∧ is_modifier kc = false

instance (kc : Nat) : Decidable (regular_key kc) := by
  unfold regular_key; infer_instance

/-- `KbHidReport([u8; 8])`: byte 0 is the modifier bitmask `b0`, byte 1
is the reserved byte `b1`, and `slots` are bytes 2–7 (`self.0[2..]`),
always a list of length 6. -/
structure KbHidReport where
  b0 : Nat
  b1 : Nat
  slots : List Nat
  deriving Repr, DecidableEq

/-- `KbHidReport::default()`: all eight bytes zero. -/
def KbHidReport.default : KbHidReport :=
  ⟨0, 0, List.replicate 6 0⟩

/-- `KbHidReport::as_bytes` viewed as the eight-byte sequence. -/
def KbHidReport.as_bytes (r : KbHidReport) : List Nat :=
  r.b0 :: r.b1 :: r.slots

/-- `self.0[2..].iter_mut().find(|c| **c == 0).map(|c| *c = kc)`:
write `kc` into the first zero-valued slot, `none` if no slot is free. -/
def insertFirstZero : List Nat → Nat → Option (List Nat)
  | [], _ => none
  | c :: rest, kc =>
      if c = 0 then some (kc :: rest)
      else (insertFirstZero rest kc).map (fun l => c :: l)

/-- `KbHidReport::set_all`: write `kc` into every one of the six
non-modifier slots (`self.0[2..]`). -/
def KbHidReport.set_all (r : KbHidReport) (kc : Nat) : KbHidReport :=
  { r with slots := List.replicate 6 kc }

/-- `KbHidReport::pressed`, arm for arm from the source `match`:
`No` is a no-op; the three error sentinels force-fill all slots;
a modifier ORs its bit into byte 0; any other key goes into the first
zero slot, or all slots become `ErrorRollOver` when none is free. -/
def KbHidReport.pressed (r : KbHidReport) (kc : Nat) : KbHidReport :=
  if kc = KeyCode.No then r
  else if kc = KeyCode.ErrorRollOver ∨ kc = KeyCode.PostFail ∨
      kc = KeyCode.ErrorUndefined then r.set_all kc
  else if is_modifier kc then { r with b0 := r.b0 ||| as_modifier_bit kc }
  else
    match insertFirstZero r.slots kc with
    | some slots => { r with slots := slots }
    | none => r.set_all KeyCode.ErrorRollOver

/-- `KbHidReport::clear`: `set_all(KeyCode::No)`. -/
def KbHidReport.clear (r : KbHidReport) : KbHidReport :=
  r.set_all KeyCode.No

/-- Outcome of one hardware write on the interrupt-IN endpoint
(`self.endpoint_interrupt_in.write(data)`), supplied as an oracle. -/
inductive EpWriteResult where
  | ok : Nat → EpWriteResult
  | wouldBlock : EpWriteResult
  | otherErr : EpWriteResult
  deriving Repr, DecidableEq

/-- The Protocol Engine state owned by `HidClass`: the pending-transfer
flag `expect_interrupt_in_complete` and the (fixed) address of the
interrupt-IN endpoint. -/
structure HidState where
  expect_interrupt_in_complete : Bool
  ep_addr : Nat
  deriving Repr, DecidableEq

instance : DecidableEq (Except Unit Nat) := fun a b =>
  match a, b with
  | Except.ok x, Except.ok y =>
      if h : x = y then isTrue (by rw [h])
      else isFalse (fun hc => h (by injection hc))
  | Except.error x, Except.error y => isTrue (by cases x; cases y; rfl)
  | Except.ok _, Except.error _ => isFalse (fun hc => by cases hc)
  | Except.error _, Except.ok _ => isFalse (fun hc => by cases hc)

/-- The result of `HidClass::write`: the updated engine state, the Rust
return value `Result<usize, ()>`, and whether the hardware endpoint
write was invoked at all. -/
structure WriteResult where
  state : HidState
  ret : Except Unit Nat
  hw_touched : Bool
  deriving Repr, DecidableEq

/-- `HidClass::write(data)`: if the pending flag is set, return `Ok(0)`
without touching hardware; otherwise set the flag when
`data.len() >= 8`, then perform the endpoint write, mapping
`WouldBlock` to `Ok(0)` and any other failure to `Err(())`. -/
def HidClass.write (s : HidState) (data : List Nat) (hw : EpWriteResult) :
    WriteResult :=
  if s.expect_interrupt_in_complete then ⟨s, Except.ok 0, false⟩
  else
    let s1 := if 8 ≤ data.length then
        { s with expect_interrupt_in_complete := true } else s
    match hw with
    | EpWriteResult.ok count => ⟨s1, Except.ok count, true⟩
    | EpWriteResult.wouldBlock => ⟨s1, Except.ok 0, true⟩
    | EpWriteResult.otherErr => ⟨s1, Except.error (), true⟩

/-- `HidClass::reset`: clear the pending flag unconditionally. -/
def HidClass.reset (s : HidState) : HidState :=
  { s with expect_interrupt_in_complete := false }

/-- `HidClass::endpoint_in_complete(addr)`: clear the pending flag only
when `addr` equals the interrupt-IN endpoint's address. -/
def HidClass.endpoint_in_complete (s : HidState) (addr : Nat) : HidState :=
  if addr = s.ep_addr then
    { s with expect_interrupt_in_complete := false }
  else s

/-- `HidClass::poll`: empty body. -/
def HidClass.poll (s : HidState) : HidState := s

/-- `HidClass::endpoint_out(_addr)`: empty body. -/
def HidClass.endpoint_out (s : HidState) (_addr : Nat) : HidState := s

/-- The USB error relevant to descriptor assembly
(`UsbError::InvalidState`). -/
inductive UsbError where
  | invalidState : UsbError
  deriving Repr, DecidableEq

/-- One write performed through the `DescriptorWriter`:
`writer.interface(..)`, `writer.write(descriptor_type, payload)`, or
`writer.endpoint(..)`. -/
inductive DescWrite where
  | iface : Nat → Nat → Nat → DescWrite
  | raw : Nat → List Nat → DescWrite
  | endpoint : Nat → DescWrite
  deriving Repr, DecidableEq

/-- `INTERFACE_CLASS_HID`. -/
def INTERFACE_CLASS_HID : Nat := 0x03

/-- `SPECIFICATION_RELEASE`. -/
def SPECIFICATION_RELEASE : Nat := 0x111

/-- `HidClass::get_configuration_descriptors`: emit the interface
descriptor, then — unless the report descriptor is longer than
`u16::max_value()` bytes, in which case return `InvalidState` — the HID
descriptor (bcdHID little-endian, country code 0, one sub-descriptor of
type Report with a 16-bit little-endian length) and the interrupt-IN
endpoint descriptor.  Returns the trace of descriptor writes performed
together with the `usb_device::Result<()>`.  (The writer's own buffer
errors are not modelled; each write succeeds.) -/
def HidClass.get_configuration_descriptors (sub prot : Nat)
    (report_descriptor : List Nat) (s : HidState) :
    List DescWrite × Except UsbError Unit :=
  let w1 := [DescWrite.iface INTERFACE_CLASS_HID sub prot]
  let descriptor_len := report_descriptor.length
  if 65535 < descriptor_len then (w1, Except.error UsbError.invalidState)
  else
    (w1 ++
      [DescWrite.raw 0x21
        [SPECIFICATION_RELEASE % 256, SPECIFICATION_RELEASE / 256,
         0, 1, 0x22, descriptor_len % 256, descriptor_len / 256],
       DescWrite.endpoint s.ep_addr],
     Except.ok ())

/-- `ReportType`. -/
inductive ReportType where
  | input : ReportType
  | output : ReportType
  | feature : ReportType
  | reserved : Nat → ReportType
  deriving Repr, DecidableEq

/-- `impl From<u8> for ReportType`. -/
def ReportType.fromByte (val : Nat) : ReportType :=
  if val = 1 then ReportType.input
  else if val = 2 then ReportType.output
  else if val = 3 then ReportType.feature
  else ReportType.reserved val

/-- The six standard HID class requests (`Request`). -/
inductive HidRequest where
  | getReport | getIdle | getProtocol | setReport | setIdle | setProtocol
  deriving Repr, DecidableEq

/-- `Request::new`. -/
def HidRequest.new (u : Nat) : Option HidRequest :=
  if u = 0x01 then some HidRequest.getReport
  else if u = 0x02 then some HidRequest.getIdle
  else if u = 0x03 then some HidRequest.getProtocol
  else if u = 0x09 then some HidRequest.setReport
  else if u = 0x0a then some HidRequest.setIdle
  else if u = 0x0b then some HidRequest.setProtocol
  else none

/-- `usb_device::control::RequestType` (the cases the engine matches). -/
inductive RequestType where
  | standard | cls | vendor | reservedType
  deriving Repr, DecidableEq

/-- `usb_device::control::Recipient` (the cases the engine matches). -/
inductive Recipient where
  | device | iface | endpointRcpt | otherRcpt
  deriving Repr, DecidableEq

/-- The fields of a `usb_device::control::Request` the engine reads:
`request_type`, `recipient`, the one-byte `request` code and the 16-bit
`value` field. -/
structure ControlRequest where
  request_type : RequestType
  recipient : Recipient
  request : Nat
  value : Nat
  deriving Repr, DecidableEq

/-- `control::Request::GET_DESCRIPTOR`. -/
def GET_DESCRIPTOR : Nat := 6

/-- Outcome of a control transfer: `xfer.accept_with(data)`,
`xfer.reject()`, or no response queued at all. -/
inductive XferOutcome where
  | accepted : List Nat → XferOutcome
  | rejected : XferOutcome
  | unhandled : XferOutcome
  deriving Repr, DecidableEq

/-- `HidClass::get_report` (the private control-in helper): split the
request's 16-bit value into big-endian bytes (high = report type, low =
report id), delegate to the device capability's `get_report` — modelled
as the response function `dev_get` — and accept with its data on
success, reject on failure. -/
def HidClass.get_report
    (dev_get : ReportType → Nat → Except Unit (List Nat))
    (req : ControlRequest) : XferOutcome :=
  let report_type := ReportType.fromByte (req.value / 256 % 256)
  let report_id := req.value % 256
  match dev_get report_type report_id with
  | Except.ok data => XferOutcome.accepted data
  | Except.error _ => XferOutcome.rejected

/-- `HidClass::set_report` (the private control-out helper). -/
def HidClass.set_report
    (dev_set : ReportType → Nat → List Nat → Except Unit Unit)
    (req : ControlRequest) (data : List Nat) : XferOutcome :=
  let report_type := ReportType.fromByte (req.value / 256 % 256)
  let report_id := req.value % 256
  match dev_set report_type report_id data with
  | Except.ok _ => XferOutcome.accepted []
  | Except.error _ => XferOutcome.rejected

/-- `HidClass::control_in`: a standard interface GET_DESCRIPTOR for
descriptor type Report (`0x22`) at index 0 answers with the capability's
report descriptor; a class interface request decoding to GetReport is
delegated through `HidClass.get_report`; everything else is left
unanswered.  The engine state (pending flag, endpoint address) is
returned untouched: the Rust body only reads `self.device` and the
transfer object. -/
def HidClass.control_in
    (dev_get : ReportType → Nat → Except Unit (List Nat))
    (report_descriptor : List Nat) (s : HidState) (req : ControlRequest) :
    HidState × XferOutcome :=
  (s,
   match req.request_type, req.recipient with
   | RequestType.standard, Recipient.iface =>
       if req.request = GET_DESCRIPTOR then
         let dtype := req.value / 256 % 256
         let index := req.value % 256
         if dtype = 0x22 ∧ index = 0 then
           XferOutcome.accepted report_descriptor
         else XferOutcome.unhandled
       else XferOutcome.unhandled
   | RequestType.cls, Recipient.iface =>
       match HidRequest.new req.request with
       | some HidRequest.getReport => HidClass.get_report dev_get req
       | _ => XferOutcome.unhandled
   | _, _ => XferOutcome.unhandled)

/-- `HidClass::control_out`: a class interface request decoding to
SetReport is delegated through `HidClass.set_report`; everything else is
left unanswered.  The engine state is returned untouched. -/
def HidClass.control_out
    (dev_set : ReportType → Nat → List Nat → Except Unit Unit)
    (s : HidState) (req : ControlRequest) (data : List Nat) :
    HidState × XferOutcome :=
  (s,
   if req.request_type = RequestType.cls ∧ req.recipient = Recipient.iface
   then
     match HidRequest.new req.request with
     | some HidRequest.setReport => HidClass.set_report dev_set req data
     | _ => XferOutcome.unhandled
   else XferOutcome.unhandled)

/-- `USBOut::send_report`'s loop
`while let Ok(0) = self.usb_class.write(report.as_bytes()) {}`, with an
oracle `hw` giving the outcome of the `k`-th hardware endpoint write and
fuel bounding the number of loop iterations (`none` = the loop is still
spinning when the fuel runs out).  The oracle index advances only when
`write` actually touched the hardware. -/
def send_report_loop (data : List Nat) (hw : Nat → EpWriteResult) :
    Nat → HidState → Nat → Option (HidState × Except Unit Nat)
  | 0, _, _ => none
  | fuel + 1, s, k =>
      let r := HidClass.write s data (hw k)
      let k1 := if r.hw_touched then k + 1 else k
      match r.ret with
      | Except.ok 0 => send_report_loop data hw fuel r.state k1
      | ret => some (r.state, ret)

/-- `USBOut::send_report(report)`: spin on `write` starting at oracle
index 0. -/
def send_report (data : List Nat) (hw : Nat → EpWriteResult)
    (fuel : Nat) (s : HidState) : Option (HidState × Except Unit Nat) :=
  send_report_loop data hw fuel s 0

/-- C1: while the pending-transfer flag is set, every `write` returns
`Ok(0)` (not an error) with the state untouched and the hardware
endpoint write not invoked; after `endpoint_in_complete` for the
matching endpoint address, a subsequent `write` performs the hardware
write again, and a hardware success `Ok(c)` is returned as `Ok(c)`. -/
theorem write_pending_returns_zero_then_resumes
    (s : HidState) (data data1 : List Nat) (hw hw1 : EpWriteResult) (c : Nat)
    (h : s.expect_interrupt_in_complete = true) :
    HidClass.write s data hw = ⟨s, Except.ok 0, false⟩ ∧
    (HidClass.write (HidClass.endpoint_in_complete s s.ep_addr) data1
        hw1).hw_touched = true ∧
    (HidClass.write (HidClass.endpoint_in_complete s s.ep_addr) data1
        (EpWriteResult.ok c)).ret = Except.ok c := by
  refine ⟨?_, ?_, ?_⟩
  · simp [HidClass.write, h]
  · cases hw1 <;> simp [HidClass.write, HidClass.endpoint_in_complete]
  · simp [HidClass.write, HidClass.endpoint_in_complete]

theorem write_pending_returns_zero_then_resumes_witness :
    (⟨true, 1⟩ : HidState).expect_interrupt_in_complete = true ∧
    (HidClass.write ⟨true, 1⟩ [1, 2, 3] EpWriteResult.otherErr =
        ⟨⟨true, 1⟩, Except.ok 0, false⟩ ∧
      (HidClass.write
          (HidClass.endpoint_in_complete ⟨true, 1⟩
            (⟨true, 1⟩ : HidState).ep_addr)
          (List.replicate 8 0) EpWriteResult.wouldBlock).hw_touched = true ∧
      (HidClass.write
          (HidClass.endpoint_in_complete ⟨true, 1⟩
            (⟨true, 1⟩ : HidState).ep_addr)
          (List.replicate 8 0) (EpWriteResult.ok 8)).ret = Except.ok 8) :=
  ⟨rfl, write_pending_returns_zero_then_resumes ⟨true, 1⟩ [1, 2, 3]
    (List.replicate 8 0) EpWriteResult.otherErr EpWriteResult.wouldBlock 8 rfl⟩

/-- C2: the pending-transfer flag's full lifecycle.  After `write` the
flag is true exactly when the data length is at least 8 or it was
already true (so it is set only by a qualifying write);
`endpoint_in_complete` clears it exactly when the address matches the
engine's interrupt-IN endpoint and otherwise leaves it unchanged;
`reset` clears it unconditionally; and every other operation of the
engine — `poll`, `endpoint_out`, `control_in`, `control_out` — leaves
the engine state, and hence the flag, unchanged. -/
theorem pending_flag_lifecycle :
    (∀ (s : HidState) (data : List Nat) (hw : EpWriteResult),
      (HidClass.write s data hw).state.expect_interrupt_in_complete =
        if 8 ≤ data.length then true else s.expect_interrupt_in_complete) ∧
    (∀ (s : HidState) (addr : Nat),
      (HidClass.endpoint_in_complete s addr).expect_interrupt_in_complete =
        if addr = s.ep_addr then false else s.expect_interrupt_in_complete) ∧
    (∀ s : HidState,
      (HidClass.reset s).expect_interrupt_in_complete = false) ∧
    (∀ s : HidState, HidClass.poll s = s) ∧
    (∀ (s : HidState) (addr : Nat), HidClass.endpoint_out s addr = s) ∧
    (∀ (dev_get : ReportType → Nat → Except Unit (List Nat))
        (rd : List Nat) (s : HidState) (req : ControlRequest),
      (HidClass.control_in dev_get rd s req).1 = s) ∧
    (∀ (dev_set : ReportType → Nat → List Nat → Except Unit Unit)
        (s : HidState) (req : ControlRequest) (data : List Nat),
      (HidClass.control_out dev_set s req data).1 = s) := by
  refine ⟨?_, ?_, ?_, ?_, ?_, ?_, ?_⟩
  · intro s data hw
    by_cases hp : s.expect_interrupt_in_complete
    · cases hw <;> simp [HidClass.write, hp]
    · cases hw <;> simp [HidClass.write, hp] <;> split <;>
        simp_all [HidClass.write]
  · intro s addr
    unfold HidClass.endpoint_in_complete
    split <;> simp_all
  · intro s; rfl
  · intro s; rfl
  · intro s addr; rfl
  · intro dev_get rd s req; rfl
  · intro dev_set s req data; rfl

/-- C3: a `write` with the flag clear and data length at least 8 sets
the pending flag irrespective of the hardware outcome (the flag is set
before the hardware write is attempted); in particular, when the
hardware reports `WouldBlock`, the call returns `Ok(0)` with the
hardware invoked but leaves the flag set, so every subsequent `write`
returns `Ok(0)` without touching hardware, until a matching
`endpoint_in_complete` or a `reset` clears the flag. -/
theorem write_wouldblock_leaves_flag_set
    (s : HidState) (data : List Nat)
    (h : s.expect_interrupt_in_complete = false) (h8 : 8 ≤ data.length) :
    (∀ hw : EpWriteResult,
      (HidClass.write s data hw).state.expect_interrupt_in_complete = true) ∧
    HidClass.write s data EpWriteResult.wouldBlock =
      ⟨{ s with expect_interrupt_in_complete := true }, Except.ok 0, true⟩ ∧
    (∀ (d : List Nat) (hw : EpWriteResult),
      HidClass.write
          (HidClass.write s data EpWriteResult.wouldBlock).state d hw =
        ⟨(HidClass.write s data EpWriteResult.wouldBlock).state,
          Except.ok 0, false⟩) ∧
    (HidClass.endpoint_in_complete
        (HidClass.write s data EpWriteResult.wouldBlock).state
        s.ep_addr).expect_interrupt_in_complete = false ∧
    (HidClass.reset (HidClass.write s data EpWriteResult.wouldBlock).state
        ).expect_interrupt_in_complete = false := by
  refine ⟨?_, ?_, ?_, ?_, ?_⟩
  · intro hw; cases hw <;> simp [HidClass.write, h, h8]
  · simp [HidClass.write, h, h8]
  · intro d hw
    simp [HidClass.write, h, h8]
  · simp [HidClass.write, HidClass.endpoint_in_complete, h, h8]
  · simp [HidClass.write, HidClass.reset, h, h8]

theorem write_wouldblock_leaves_flag_set_witness :
    (⟨false, 1⟩ : HidState).expect_interrupt_in_complete = false ∧
    8 ≤ (List.replicate 8 0).length ∧
    ((∀ hw : EpWriteResult,
        (HidClass.write ⟨false, 1⟩ (List.replicate 8 0)
            hw).state.expect_interrupt_in_complete = true) ∧
      HidClass.write ⟨false, 1⟩ (List.replicate 8 0)
          EpWriteResult.wouldBlock = ⟨⟨true, 1⟩, Except.ok 0, true⟩ ∧
      (∀ (d : List Nat) (hw : EpWriteResult),
        HidClass.write
            (HidClass.write ⟨false, 1⟩ (List.replicate 8 0)
              EpWriteResult.wouldBlock).state d hw =
          ⟨(HidClass.write ⟨false, 1⟩ (List.replicate 8 0)
              EpWriteResult.wouldBlock).state, Except.ok 0, false⟩) ∧
      (HidClass.endpoint_in_complete
          (HidClass.write ⟨false, 1⟩ (List.replicate 8 0)
            EpWriteResult.wouldBlock).state
          (⟨false, 1⟩ : HidState).ep_addr).expect_interrupt_in_complete =
        false ∧
      (HidClass.reset
          (HidClass.write ⟨false, 1⟩ (List.replicate 8 0)
            EpWriteResult.wouldBlock).state
          ).expect_interrupt_in_complete = false) :=
  ⟨rfl, by decide,
    write_wouldblock_leaves_flag_set ⟨false, 1⟩ (List.replicate 8 0)
      rfl (by decide)⟩

/-- C4 (counterexample to the claim as stated): the `send_report` loop
can stop without `write` ever having returned a nonzero count — with
the flag clear and the hardware endpoint failing with an error other
than `WouldBlock`, `write` returns `Err(())` and the
`while let Ok(0)` loop exits, so "stops retrying only when write
returns a nonzero count" is false. -/
theorem send_report_stops_on_error :
    send_report (List.replicate 8 0) (fun _ => EpWriteResult.otherErr) 2
        ⟨false, 1⟩ = some (⟨true, 1⟩, Except.error ()) ∧
    ∀ n : Nat, (Except.error () : Except Unit Nat) ≠ Except.ok n := by
  refine ⟨by decide, ?_⟩
  intro n h
  cases h

/-- C4 (amended): `send_report`'s loop retries `write` exactly while it
returns `Ok(0)`: if `write` returns `Ok(0)` the loop performs another
iteration, and if `write` returns anything else — a nonzero count or an
error — the loop stops with that result; `write` itself performs no
retries: a single call with the flag clear and a `WouldBlock` hardware
outcome touches the hardware exactly once and returns `Ok(0)` rather
than retrying internally. -/
theorem send_report_retry_contract :
    (∀ (data : List Nat) (hw : Nat → EpWriteResult) (fuel : Nat)
        (s : HidState) (k : Nat),
      (HidClass.write s data (hw k)).ret = Except.ok 0 →
      send_report_loop data hw (fuel + 1) s k =
        send_report_loop data hw fuel (HidClass.write s data (hw k)).state
          (if (HidClass.write s data (hw k)).hw_touched then k + 1 else k)) ∧
    (∀ (data : List Nat) (hw : Nat → EpWriteResult) (fuel : Nat)
        (s : HidState) (k : Nat),
      (HidClass.write s data (hw k)).ret ≠ Except.ok 0 →
      send_report_loop data hw (fuel + 1) s k =
        some ((HidClass.write s data (hw k)).state,
          (HidClass.write s data (hw k)).ret)) ∧
    (∀ (s : HidState) (data : List Nat),
      s.expect_interrupt_in_complete = false →
      (HidClass.write s data EpWriteResult.wouldBlock).ret = Except.ok 0 ∧
      (HidClass.write s data EpWriteResult.wouldBlock).hw_touched = true) := by
  refine ⟨?_, ?_, ?_⟩
  · intro data hw fuel s k h
    rw [send_report_loop]
    simp only [h]
  · intro data hw fuel s k h
    rw [send_report_loop]
    rcases hr : (HidClass.write s data (hw k)).ret with u | n
    · simp only [hr]
    · rcases n with _ | n
      · exact absurd hr h
      · simp only [hr]
  · intro s data h
    simp [HidClass.write, h]

theorem send_report_retry_contract_witness :
    ((HidClass.write ⟨false, 1⟩ (List.replicate 8 0)
        ((fun _ => EpWriteResult.wouldBlock) 0)).ret = Except.ok 0 ∧
      send_report_loop (List.replicate 8 0)
          (fun _ => EpWriteResult.wouldBlock) 3 ⟨false, 1⟩ 0 =
        send_report_loop (List.replicate 8 0)
          (fun _ => EpWriteResult.wouldBlock) 2 ⟨true, 1⟩ 1) ∧
    ((HidClass.write ⟨false, 1⟩ (List.replicate 8 0)
        ((fun _ => EpWriteResult.ok 8) 0)).ret ≠ Except.ok 0 ∧
      send_report_loop (List.replicate 8 0) (fun _ => EpWriteResult.ok 8) 3
          ⟨false, 1⟩ 0 = some (⟨true, 1⟩, Except.ok 8)) ∧
    ((⟨false, 1⟩ : HidState).expect_interrupt_in_complete = false ∧
      (HidClass.write ⟨false, 1⟩ [0] EpWriteResult.wouldBlock).ret =
        Except.ok 0 ∧
      (HidClass.write ⟨false, 1⟩ [0] EpWriteResult.wouldBlock).hw_touched =
        true) :=
  ⟨⟨by decide,
    send_report_retry_contract.1 (List.replicate 8 0)
      (fun _ => EpWriteResult.wouldBlock) 2 ⟨false, 1⟩ 0 (by decide)⟩,
   ⟨by decide,
    send_report_retry_contract.2.1 (List.replicate 8 0)
      (fun _ => EpWriteResult.ok 8) 2 ⟨false, 1⟩ 0 (by decide)⟩,
   ⟨rfl, send_report_retry_contract.2.2 ⟨false, 1⟩ [0] rfl⟩⟩

lemma insertFirstZero_of_all_nonzero (l : List Nat) (k : Nat)
    (h : ∀ c ∈ l, c ≠ 0) : insertFirstZero l k = none := by
  induction l with
  | nil => rfl
  | cons c rest ih =>
      have hc : c ≠ 0 := h c (by simp)
      simp only [insertFirstZero, if_neg hc,
        ih (fun x hx => h x (by simp [hx])), Option.map_none']

lemma insertFirstZero_pack (acc : List Nat) (m k : Nat)
    (hacc : ∀ c ∈ acc, c ≠ 0) :
    insertFirstZero (acc ++ List.replicate (m + 1) 0) k =
      some (acc ++ k :: List.replicate m 0) := by
  induction acc with
  | nil => simp [insertFirstZero, List.replicate_succ]
  | cons c rest ih =>
      have hc : c ≠ 0 := hacc c (by simp)
      simp only [List.cons_append, insertFirstZero, if_neg hc,
        List.append_eq, ih (fun x hx => hacc x (by simp [hx])),
        Option.map_some']

lemma pressed_regular_eq (r : KbHidReport) (k : Nat) (hk : regular_key k) :
    r.pressed k =
      match insertFirstZero r.slots k with
      | some slots => { r with slots := slots }
      | none => r.set_all KeyCode.ErrorRollOver := by
  obtain ⟨-, h0, h1, h2, h3, hm⟩ := hk
  simp only [KbHidReport.pressed, KeyCode.No, KeyCode.ErrorRollOver,
    KeyCode.PostFail, KeyCode.ErrorUndefined] at *
  rw [if_neg h0, if_neg (by tauto), if_neg (by simp [hm])]

lemma foldl_pressed_pack (ks : List Nat) :
    ∀ (acc : List Nat) (b0 b1 : Nat),
      acc.length + ks.length ≤ 6 → (∀ c ∈ acc, c ≠ 0) →
      (∀ k ∈ ks, regular_key k) →
      ks.foldl KbHidReport.pressed
          ⟨b0, b1, acc ++ List.replicate (6 - acc.length) 0⟩ =
        ⟨b0, b1, (acc ++ ks) ++
          List.replicate (6 - acc.length - ks.length) 0⟩ := by
  induction ks with
  | nil => intro acc b0 b1 _ _ _; simp
  | cons k ks ih =>
      intro acc b0 b1 hlen hacc hval
      have hk : regular_key k := hval k (by simp)
      have hm : 6 - acc.length = (6 - acc.length - 1) + 1 := by
        simp only [List.length_cons] at hlen; omega
      have hstep :
          KbHidReport.pressed ⟨b0, b1, acc ++ List.replicate (6 - acc.length) 0⟩ k =
            ⟨b0, b1, (acc ++ [k]) ++
              List.replicate (6 - acc.length - 1) 0⟩ := by
        rw [pressed_regular_eq _ k hk, hm,
          insertFirstZero_pack acc (6 - acc.length - 1) k hacc]
        simp
      simp only [List.foldl_cons, hstep]
      have := ih (acc ++ [k]) b0 b1
        (by simp only [List.length_append, List.length_cons,
          List.length_nil] at *; omega)
        (by intro c hc
            rcases List.mem_append.mp hc with h | h
            · exact hacc c h
            · simp only [List.mem_singleton] at h
              subst h; exact hk.2.1)
        (fun x hx => hval x (by simp [hx]))
      simp only [List.length_append, List.length_cons, List.length_nil] at this
      have hlen2 : 6 - (acc.length + (0 + 1)) - ks.length =
          6 - acc.length - (k :: ks).length := by
        simp only [List.length_cons]; omega
      rw [show (6 - acc.length - 1) = 6 - (acc.length + (0 + 1)) from by omega,
        this, hlen2]
      simp [List.append_assoc]

/-- C5: applying any sequence of at most six distinct regular
(non-modifier, non-sentinel, nonzero) key-press events to a default
report places exactly those key codes in bytes 2–7 in press order,
left-packed, with trailing zeros (and leaves bytes 0 and 1 zero). -/
theorem pressed_sequence_left_packed (ks : List Nat)
    (h6 : ks.length ≤ 6) (_hnd : ks.Nodup)
    (hval : ∀ k ∈ ks, regular_key k) :
    ks.foldl KbHidReport.pressed KbHidReport.default =
      ⟨0, 0, ks ++ List.replicate (6 - ks.length) 0⟩ := by
  have := foldl_pressed_pack ks [] 0 0 (by simpa using h6)
    (by intro c hc; cases hc) hval
  simpa [KbHidReport.default] using this

theorem pressed_sequence_left_packed_witness :
    ([4, 5, 6, 7] : List Nat).length ≤ 6 ∧
    ([4, 5, 6, 7] : List Nat).Nodup ∧
    (∀ k ∈ ([4, 5, 6, 7] : List Nat), regular_key k) ∧
    ([4, 5, 6, 7] : List Nat).foldl KbHidReport.pressed KbHidReport.default =
      ⟨0, 0, [4, 5, 6, 7, 0, 0]⟩ :=
  ⟨by decide, by decide, by decide,
    pressed_sequence_left_packed [4, 5, 6, 7] (by decide) (by decide)
      (by decide)⟩

/-- C6: pressing a further distinct regular key while all six
non-modifier slots are occupied (nonzero) forces all of bytes 2–7 to
the roll-over sentinel `ErrorRollOver = 0x01`, regardless of what the
occupying keys are or in which order they were pressed. -/
theorem pressed_overflow_rollover (r : KbHidReport) (k : Nat)
    (hk : regular_key k) (_hlen : r.slots.length = 6)
    (hfull : ∀ c ∈ r.slots, c ≠ 0) :
    (r.pressed k).slots = List.replicate 6 KeyCode.ErrorRollOver := by
  rw [pressed_regular_eq r k hk,
    insertFirstZero_of_all_nonzero r.slots k hfull]
  rfl

theorem pressed_overflow_rollover_witness :
    regular_key 10 ∧
    (⟨0, 0, [9, 8, 7, 6, 5, 4]⟩ : KbHidReport).slots.length = 6 ∧
    (∀ c ∈ (⟨0, 0, [9, 8, 7, 6, 5, 4]⟩ : KbHidReport).slots, c ≠ 0) ∧
    ((⟨0, 0, [9, 8, 7, 6, 5, 4]⟩ : KbHidReport).pressed 10).slots =
      List.replicate 6 KeyCode.ErrorRollOver :=
  ⟨by decide, by decide, by decide,
    pressed_overflow_rollover ⟨0, 0, [9, 8, 7, 6, 5, 4]⟩ 10 (by decide)
      (by decide) (by decide)⟩

/-- C7: pressing any of the three error sentinel key codes (roll-over
`0x01`, post-fail `0x02`, undefined `0x03`) from any report state
forces all six of bytes 2–7 to that sentinel, overriding any previously
placed keys. -/
theorem pressed_sentinel_forces_all (r : KbHidReport) (k : Nat)
    (hk : k = KeyCode.ErrorRollOver ∨ k = KeyCode.PostFail ∨
      k = KeyCode.ErrorUndefined) :
    (r.pressed k).slots = List.replicate 6 k := by
  rcases hk with h | h | h <;> subst h <;>
    simp [KbHidReport.pressed, KbHidReport.set_all, KeyCode.No,
      KeyCode.ErrorRollOver, KeyCode.PostFail, KeyCode.ErrorUndefined]

theorem pressed_sentinel_forces_all_witness :
    ((2 : Nat) = KeyCode.ErrorRollOver ∨ (2 : Nat) = KeyCode.PostFail ∨
      (2 : Nat) = KeyCode.ErrorUndefined) ∧
    ((⟨5, 0, [4, 20, 0, 0, 0, 0]⟩ : KbHidReport).pressed 2).slots =
      List.replicate 6 2 :=
  ⟨by decide,
    pressed_sentinel_forces_all ⟨5, 0, [4, 20, 0, 0, 0, 0]⟩ 2 (by decide)⟩

/-- C8: `clear` sets bytes 2–7 to zero, leaves byte 0 (the modifier
byte) unchanged — and also leaves byte 1 unchanged — and is idempotent:
applying it twice equals applying it once. -/
theorem clear_idempotent_keeps_modifiers (r : KbHidReport) :
    (r.clear).slots = List.replicate 6 0 ∧
    (r.clear).b0 = r.b0 ∧
    (r.clear).b1 = r.b1 ∧
    r.clear.clear = r.clear := by
  refine ⟨rfl, rfl, rfl, rfl⟩

/-- C9: `get_configuration_descriptors` with a report descriptor of
65536 bytes fails with `InvalidState`, and the only descriptor written
before failing is the interface descriptor — in particular no partial
HID descriptor is emitted; with 65535 bytes it succeeds and the HID
descriptor's 16-bit little-endian length field is the two bytes
`0xFF 0xFF`. -/
theorem get_configuration_descriptors_length_edge (sub prot : Nat)
    (s : HidState) (rd_big rd_max : List Nat)
    (hbig : rd_big.length = 65536) (hmax : rd_max.length = 65535) :
    (HidClass.get_configuration_descriptors sub prot rd_big s).2 =
        Except.error UsbError.invalidState ∧
    (HidClass.get_configuration_descriptors sub prot rd_big s).1 =
        [DescWrite.iface INTERFACE_CLASS_HID sub prot] ∧
    (HidClass.get_configuration_descriptors sub prot rd_max s).2 =
        Except.ok () ∧
    (HidClass.get_configuration_descriptors sub prot rd_max s).1 =
        [DescWrite.iface INTERFACE_CLASS_HID sub prot,
         DescWrite.raw 0x21 [0x11, 0x01, 0, 1, 0x22, 0xFF, 0xFF],
         DescWrite.endpoint s.ep_addr] := by
  refine ⟨?_, ?_, ?_, ?_⟩ <;>
    simp [HidClass.get_configuration_descriptors, hbig, hmax,
      SPECIFICATION_RELEASE]

theorem get_configuration_descriptors_length_edge_witness :
    (List.replicate 65536 (0 : Nat)).length = 65536 ∧
    (List.replicate 65535 (0 : Nat)).length = 65535 ∧
    ((HidClass.get_configuration_descriptors 1 1
        (List.replicate 65536 0) ⟨false, 1⟩).2 =
          Except.error UsbError.invalidState ∧
      (HidClass.get_configuration_descriptors 1 1
        (List.replicate 65536 0) ⟨false, 1⟩).1 =
          [DescWrite.iface INTERFACE_CLASS_HID 1 1] ∧
      (HidClass.get_configuration_descriptors 1 1
        (List.replicate 65535 0) ⟨false, 1⟩).2 = Except.ok () ∧
      (HidClass.get_configuration_descriptors 1 1
        (List.replicate 65535 0) ⟨false, 1⟩).1 =
          [DescWrite.iface INTERFACE_CLASS_HID 1 1,
           DescWrite.raw 0x21 [0x11, 0x01, 0, 1, 0x22, 0xFF, 0xFF],
           DescWrite.endpoint (⟨false, 1⟩ : HidState).ep_addr]) :=
  ⟨List.length_replicate _ _, List.length_replicate _ _,
    get_configuration_descriptors_length_edge 1 1 ⟨false, 1⟩
      (List.replicate 65536 0) (List.replicate 65535 0)
      (List.length_replicate _ _) (List.length_replicate _ _)⟩

/-- C10: a class GetReport control-in request splits the 16-bit value
field into high byte = report type and low byte = report id, with the
wire values 1, 2, 3 mapping to Input, Output, Feature and any other
byte preserved as Reserved; value `0x0103` is delegated to the
capability's `get_report` as type Input, id 3; capability success
returns its data over the control channel and capability failure
rejects the transfer. -/
theorem class_getreport_decodes_and_delegates :
    (ReportType.fromByte 1 = ReportType.input ∧
      ReportType.fromByte 2 = ReportType.output ∧
      ReportType.fromByte 3 = ReportType.feature ∧
      ∀ v : Nat, v ≠ 1 → v ≠ 2 → v ≠ 3 →
        ReportType.fromByte v = ReportType.reserved v) ∧
    (∀ (dev_get : ReportType → Nat → Except Unit (List Nat))
        (rd : List Nat) (s : HidState) (value : Nat), value < 65536 →
      (HidClass.control_in dev_get rd s
          ⟨RequestType.cls, Recipient.iface, 0x01, value⟩).2 =
        match dev_get (ReportType.fromByte (value / 256)) (value % 256) with
        | Except.ok data => XferOutcome.accepted data
        | Except.error _ => XferOutcome.rejected) ∧
    (∀ (dev_get : ReportType → Nat → Except Unit (List Nat))
        (rd : List Nat) (s : HidState) (data : List Nat),
      dev_get ReportType.input 3 = Except.ok data →
      (HidClass.control_in dev_get rd s
          ⟨RequestType.cls, Recipient.iface, 0x01, 0x0103⟩).2 =
        XferOutcome.accepted data) ∧
    (∀ (dev_get : ReportType → Nat → Except Unit (List Nat))
        (rd : List Nat) (s : HidState),
      dev_get ReportType.input 3 = Except.error () →
      (HidClass.control_in dev_get rd s
          ⟨RequestType.cls, Recipient.iface, 0x01, 0x0103⟩).2 =
        XferOutcome.rejected) := by
  refine ⟨⟨rfl, rfl, rfl, ?_⟩, ?_, ?_, ?_⟩
  · intro v h1 h2 h3
    simp [ReportType.fromByte, h1, h2, h3]
  · intro dev_get rd s value hv
    have hdiv : value / 256 < 256 := by omega
    simp only [HidClass.control_in, HidRequest.new, HidClass.get_report]
    norm_num
    rw [Nat.mod_eq_of_lt hdiv]
  · intro dev_get rd s data h
    simp [HidClass.control_in, HidRequest.new, HidClass.get_report,
      ReportType.fromByte, h]
  · intro dev_get rd s h
    simp [HidClass.control_in, HidRequest.new, HidClass.get_report,
      ReportType.fromByte, h]

theorem class_getreport_decodes_and_delegates_witness :
    ((5 : Nat) ≠ 1 ∧ (5 : Nat) ≠ 2 ∧ (5 : Nat) ≠ 3 ∧
      ReportType.fromByte 5 = ReportType.reserved 5) ∧
    ((0x0103 : Nat) < 65536 ∧
      (HidClass.control_in
          (fun t i => if t = ReportType.input ∧ i = 3 then
            Except.ok [9] else Except.error ())
          [5] ⟨false, 1⟩
          ⟨RequestType.cls, Recipient.iface, 0x01, 0x0103⟩).2 =
        match (fun (t : ReportType) (i : Nat) =>
            if t = ReportType.input ∧ i = 3 then
              Except.ok [9] else Except.error ())
            (ReportType.fromByte (0x0103 / 256)) (0x0103 % 256) with
        | Except.ok data => XferOutcome.accepted data
        | Except.error _ => XferOutcome.rejected) ∧
    ((fun (t : ReportType) (i : Nat) =>
        if t = ReportType.input ∧ i = 3 then
          (Except.ok [9] : Except Unit (List Nat)) else Except.error ())
        ReportType.input 3 = Except.ok [9] ∧
      (HidClass.control_in
          (fun t i => if t = ReportType.input ∧ i = 3 then
            Except.ok [9] else Except.error ())
          [5] ⟨false, 1⟩
          ⟨RequestType.cls, Recipient.iface, 0x01, 0x0103⟩).2 =
        XferOutcome.accepted [9]) ∧
    ((fun (_ : ReportType) (_ : Nat) =>
        (Except.error () : Except Unit (List Nat))) ReportType.input 3 =
          Except.error () ∧
      (HidClass.control_in
          (fun _ _ => Except.error ()) [5] ⟨false, 1⟩
          ⟨RequestType.cls, Recipient.iface, 0x01, 0x0103⟩).2 =
        XferOutcome.rejected) :=
  ⟨⟨by decide, by decide, by decide,
      class_getreport_decodes_and_delegates.1.2.2.2 5
        (by decide) (by decide) (by decide)⟩,
   ⟨by decide,
    class_getreport_decodes_and_delegates.2.1
      (fun t i => if t = ReportType.input ∧ i = 3 then
        Except.ok [9] else Except.error ())
      [5] ⟨false, 1⟩ 0x0103 (by decide)⟩,
   ⟨rfl,
    class_getreport_decodes_and_delegates.2.2.1
      (fun t i => if t = ReportType.input ∧ i = 3 then
        Except.ok [9] else Except.error ())
      [5] ⟨false, 1⟩ [9] rfl⟩,
   ⟨rfl,
    class_getreport_decodes_and_delegates.2.2.2
      (fun _ _ => Except.error ()) [5] ⟨false, 1⟩ rfl⟩⟩

end K2K
